import Mathlib

/-!
Verification of the konsiliumB AI-service pipeline.

The development shallowly embeds the response-processing code of
`apps/ai_service/gemini_service.py` and the request handlers of
`apps/ai_service/views.py` / `apps/ai_service/serializers.py`.
Python text is modelled as `List Char`; parsed JSON values as `JVal`;
Python exceptions as `PyExc` (distinguishing `ValueError` from other
exceptions, which is the distinction the view handlers observe); the
standard-library JSON parser `json.loads` is abstracted as a
`parse : PyStr → Option JVal` parameter where it matters.
-/

set_option maxHeartbeats 1000000

/-- Characters of a Python `str`: the embedding models Python text as `List Char`. -/
abbrev PyStr := List Char

/-- Turn a Lean string literal into the `List Char` model of Python text. -/
def pyS (s : String) : PyStr := s.data

/-- Model of Python `str.lower()` (faithful on the ASCII text the service compares). -/
def lowerStr (s : PyStr) : PyStr := s.map Char.toLower

/-- Model of the Python substring test `pat in s`. -/
def strContains (s pat : PyStr) : Bool :=
  match s with
  | [] => pat.isPrefixOf ([] : PyStr)
  | _ :: t => pat.isPrefixOf s || strContains t pat

/-- Model of Python `str.strip()`: drop whitespace from both ends. -/
def pstrip (s : PyStr) : PyStr :=
  ((s.dropWhile Char.isWhitespace).reverse.dropWhile Char.isWhitespace).reverse

/-- First-match association lookup: Python `dict` access on the mapping's
key-value pairs (JSON-decoded dicts have unique keys). -/
def lookupA {α : Type} (t : List (PyStr × α)) (k : PyStr) : Option α :=
  match t with
  | [] => none
  | (k', v) :: rest => if k' = k then some v else lookupA rest k

/-- Parsed JSON values as produced by `json.loads` in `_call_gemini`. -/
inductive JVal : Type where
  | jnull : JVal
  | jbool : Bool → JVal
  | jnum : Int → JVal
  | jstr : PyStr → JVal
  | jarr : List JVal → JVal
  | jobj : List (PyStr × JVal) → JVal

/-- Python truthiness of a JSON-decoded value (`if result.get('recommendations'):`). -/
def pyTruthy (v : JVal) : Bool :=
  match v with
  | .jnull => false
  | .jbool b => b
  | .jnum n => n != 0
  | .jstr s => !s.isEmpty
  | .jarr xs => !xs.isEmpty
  | .jobj fs => !fs.isEmpty

/-- Python mapping test `isinstance(v, dict)`. -/
def isMapping (v : JVal) : Bool :=
  match v with
  | .jobj _ => true
  | _ => false

/-- Python dict assignment `d[k] = v`: replace the value at an existing key
(keeping its position), otherwise append the binding at the end. JSON-decoded
dicts have unique keys, so replacing the first occurrence is faithful. -/
def setKey (fs : List (PyStr × JVal)) (k : PyStr) (v : JVal) : List (PyStr × JVal) :=
  match fs with
  | [] => [(k, v)]
  | (k1, v1) :: rest => if k1 = k then (k, v) :: rest else (k1, v1) :: setKey rest k v

/-- The fence-stripping and trimming `_call_gemini` applies to the provider text
before `json.loads` (gemini_service.py lines 72-77): strip, drop a leading
 7-character run when the text starts with a backtick-json fence, drop the last
3 characters when it ends with a backtick fence, strip again. -/
def cleanResponse (text : PyStr) : PyStr :=
  let c0 := pstrip text
  let c1 := if (pyS "```json").isPrefixOf c0 then c0.drop 7 else c0
  let c2 := if (pyS "```").isSuffixOf c1 then c1.take (c1.length - 3) else c1
  pstrip c2

/-- The kind of a raised Python exception, as far as the view handlers can
observe it: `ValueError` (caught first) versus any other `Exception`. -/
inductive PyExcKind : Type where
  | valueError : PyExcKind
  | exc : PyExcKind
deriving DecidableEq

/-- A raised Python exception: its kind and its message. -/
structure PyExc where
  kind : PyExcKind
  msg : PyStr
deriving DecidableEq

/-- Constant caller-visible message of the retryable-busy condition. -/
def rateLimitMsg : PyStr := pyS "AI service rate limit exceeded. Please try again later."

/-- Constant caller-visible message of the bad-input condition. -/
def invalidFormatMsg : PyStr := pyS "Invalid request format. Please check your input."

/-- Constant caller-visible message of the generic-unavailable condition. -/
def unavailableMsg : PyStr := pyS "AI service temporarily unavailable. Please try again later."

/-- The internal message of the `ValueError` raised when `json.loads` fails
inside `_call_gemini`. -/
def parseFailMsg : PyStr := pyS "Received invalid JSON from API"

/-- The `except` block of `_call_gemini` (gemini_service.py lines 88-102):
map the internal failure message to the exception surfaced to the caller. -/
def classifyFailure (errorMsg : PyStr) : PyExc :=
  if strContains (lowerStr errorMsg) (pyS "quota")
      || strContains (lowerStr errorMsg) (pyS "rate limit") then
    ⟨PyExcKind.exc, rateLimitMsg⟩
  else if strContains (lowerStr errorMsg) (pyS "invalid")
      || strContains (lowerStr errorMsg) (pyS "malformed") then
    ⟨PyExcKind.valueError, invalidFormatMsg⟩
  else
    ⟨PyExcKind.exc, unavailableMsg⟩

/-- The three provider-failure classes named by the spec's error taxonomy. -/
inductive FailureClass : Type where
  | retryableBusy : FailureClass
  | badInput : FailureClass
  | unavailable : FailureClass
deriving DecidableEq

/-- The classification of a failure message per the spec's taxonomy: the same
message tests the code performs, yielding the class rather than the exception. -/
def failureClassOf (errorMsg : PyStr) : FailureClass :=
  if strContains (lowerStr errorMsg) (pyS "quota")
      || strContains (lowerStr errorMsg) (pyS "rate limit") then
    .retryableBusy
  else if strContains (lowerStr errorMsg) (pyS "invalid")
      || strContains (lowerStr errorMsg) (pyS "malformed") then
    .badInput
  else
    .unavailable

/-- Outcome of the one outbound provider call: response text, or a failure
carrying the provider's diagnostic message. -/
inductive ProviderOutcome : Type where
  | success : PyStr → ProviderOutcome
  | failure : PyStr → ProviderOutcome

/-- The body of `_call_gemini`'s `try` block for a schema-bearing call: a
provider failure propagates its message; on success the text is fence-stripped
and handed to the JSON parser (abstracted as `parse`), a parse failure raising
`ValueError("Received invalid JSON from API")` inside the same `try`. -/
def callGeminiTryBody (parse : PyStr → Option JVal) (outcome : ProviderOutcome) :
    Except PyStr JVal :=
  match outcome with
  | .failure m => .error m
  | .success t =>
    match parse (cleanResponse t) with
    | some v => .ok v
    | none => .error parseFailMsg

/-- `_call_gemini` with a response schema: any failure of the `try` body is
reclassified by the `except` block into one of the three constant errors. -/
def callGeminiSchema (parse : PyStr → Option JVal) (outcome : ProviderOutcome) :
    Except PyExc JVal :=
  match callGeminiTryBody parse outcome with
  | .ok v => .ok v
  | .error m => .error (classifyFailure m)

/-- The `lang_map` literal shared by every prompt builder in `gemini_service.py`. -/
def lang_map : List (PyStr × PyStr) :=
  [ (pyS "uz-L", pyS "Uzbek (Latin script)")
  , (pyS "uz-C", pyS "Uzbek (Cyrillic script)")
  , (pyS "ru", pyS "Russian")
  , (pyS "en", pyS "English") ]

/-- `lang_map.get(language, 'English')`: the target-language label embedded in
the prompt by every operation. -/
def targetLang (language : PyStr) : PyStr :=
  (lookupA lang_map language).getD (pyS "English")

/-- The `valid_languages` literal of the request serializers. -/
def valid_languages : List PyStr :=
  [pyS "en", pyS "uz-L", pyS "uz-C", pyS "ru"]

/-- `ClarifyingQuestionsRequestSerializer.validate_language`
(serializers.py lines 9-14): reject any code outside `valid_languages`. -/
def validate_language (value : PyStr) : Except PyStr PyStr :=
  if value ∈ valid_languages then Except.ok value
  else Except.error (pyS "Invalid language. Must be one of: en, uz-L, uz-C, ru")

/-- An HTTP response: status code and JSON body. -/
structure HttpResponse where
  status : Nat
  body : JVal

/-- The clarifying-questions view's exception handlers (views.py lines 75-86):
`ValueError` becomes a constant 400 body, any other exception a constant 500 body. -/
def clarifyingErrorResponse (e : PyExc) : HttpResponse :=
  match e.kind with
  | .valueError =>
    ⟨400, .jobj [(pyS "error", .jstr (pyS "Invalid input data. Please check your request."))]⟩
  | .exc =>
    ⟨500, .jobj [(pyS "error",
      .jstr (pyS "Failed to generate clarifying questions. Please try again later."))]⟩

/-- `GeminiService.generate_clarifying_questions` after `_call_gemini` returns
(gemini_service.py line 146): `result.get('questions', [])`, which raises
`AttributeError` when the parsed value is not a mapping. -/
def clarifyingQuestionsService (callResult : Except PyExc JVal) : Except PyExc JVal :=
  match callResult with
  | .error e => .error e
  | .ok (.jobj fs) => .ok ((lookupA fs (pyS "questions")).getD (.jarr []))
  | .ok _ => .error ⟨PyExcKind.exc, pyS "AttributeError: object has no attribute get"⟩

/-- Success body of the clarifying-questions view. -/
def okQuestionsResp (xs : List JVal) : HttpResponse :=
  ⟨200, .jobj [(pyS "questions", .jarr xs)]⟩

/-- The `generate_clarifying_questions` view (views.py lines 63-86): a non-list
result is replaced by the empty list and the list is truncated to 10 entries. -/
def clarifyingQuestionsView (callResult : Except PyExc JVal) : HttpResponse :=
  match clarifyingQuestionsService callResult with
  | .error e => clarifyingErrorResponse e
  | .ok q =>
    let xs := match q with
      | JVal.jarr xs => xs
      | _ => []
    okQuestionsResp (xs.take 10)

/-- The `specialty_to_model` table of `recommend_specialists`
(gemini_service.py lines 267-289). -/
def specialty_to_model : List (PyStr × PyStr) :=
  [ (pyS "Cardiology", pyS "Gemini")
  , (pyS "Neurology", pyS "Claude")
  , (pyS "Radiology", pyS "GPT")
  , (pyS "Oncology", pyS "Llama")
  , (pyS "Endocrinology", pyS "Grok")
  , (pyS "Gastroenterology", pyS "Gemini")
  , (pyS "Pulmonology", pyS "GPT")
  , (pyS "Nephrology", pyS "Gemini")
  , (pyS "Rheumatology", pyS "Claude")
  , (pyS "Infectious Disease", pyS "Llama")
  , (pyS "Hematology", pyS "Llama")
  , (pyS "Geriatrics", pyS "Gemini")
  , (pyS "Emergency Medicine", pyS "GPT")
  , (pyS "Internal Medicine", pyS "Gemini")
  , (pyS "Pediatrics", pyS "Claude")
  , (pyS "Dermatology", pyS "GPT")
  , (pyS "Orthopedics", pyS "GPT")
  , (pyS "Urology", pyS "Gemini")
  , (pyS "Gynecology", pyS "Gemini")
  , (pyS "Psychiatry", pyS "Claude") ]

/-- `specialty_to_model.get(specialty_name, 'Gemini')` where the name comes from
`rec.get('specialty', '')`; a non-string name matches no table key. -/
def modelForSpecialty (specialty : JVal) : PyStr :=
  match specialty with
  | .jstr s => (lookupA specialty_to_model s).getD (pyS "Gemini")
  | _ => pyS "Gemini"

/-- Annotate one recommendation entry: `rec['model'] = specialty_to_model.get(...)`;
a non-mapping entry raises `AttributeError` at `rec.get`. -/
def addModelToRec (rec : JVal) : Except PyStr JVal :=
  match rec with
  | .jobj dfs =>
    Except.ok (.jobj (setKey dfs (pyS "model")
      (.jstr (modelForSpecialty ((lookupA dfs (pyS "specialty")).getD (.jstr []))))))
  | _ => Except.error (pyS "AttributeError: object has no attribute get")

/-- The annotation loop over `result['recommendations']`. -/
def addModelToRecs (recs : List JVal) : Except PyStr (List JVal) :=
  match recs with
  | [] => Except.ok []
  | rec :: rest =>
    match addModelToRec rec, addModelToRecs rest with
    | Except.ok r, Except.ok rs => Except.ok (r :: rs)
    | Except.error m, _ => Except.error m
    | _, Except.error m => Except.error m

/-- `recommend_specialists` after `_call_gemini` (gemini_service.py lines 291-297):
when `result.get('recommendations')` is truthy, iterate it annotating each entry
with its model. Iterating a truthy string or mapping yields non-mapping items
whose `.get` raises; iterating a number raises `TypeError`; a falsy value skips
annotation; a non-mapping result raises at `result.get`. -/
def recommendSpecialistsService (callResult : Except PyExc JVal) : Except PyExc JVal :=
  match callResult with
  | .error e => .error e
  | .ok result =>
    match result with
    | .jobj fs =>
      let recs := (lookupA fs (pyS "recommendations")).getD JVal.jnull
      if pyTruthy recs then
        match recs with
        | .jarr xs =>
          match addModelToRecs xs with
          | .ok ys => .ok (.jobj (setKey fs (pyS "recommendations") (.jarr ys)))
          | .error m => .error ⟨PyExcKind.exc, m⟩
        | .jstr _ => .error ⟨PyExcKind.exc, pyS "AttributeError: object has no attribute get"⟩
        | .jobj _ => .error ⟨PyExcKind.exc, pyS "AttributeError: object has no attribute get"⟩
        | _ => .error ⟨PyExcKind.exc, pyS "TypeError: object is not iterable"⟩
      else .ok result
    | _ => .error ⟨PyExcKind.exc, pyS "AttributeError: object has no attribute get"⟩

/-- A debate-history entry, observed through `msg.get('author', 'Unknown')` and
`msg.get('content', '')` with string-valued fields. -/
abbrev DebateMsg := List (PyStr × PyStr)

/-- `msg.get(k, d)` on a debate entry. -/
def msgGet (m : DebateMsg) (k d : PyStr) : PyStr := (lookupA m k).getD d

/-- One line of the final-report debate summary (gemini_service.py lines 383-386):
author, colon, the content clipped to its first 200 characters, an ellipsis. -/
def debateLine (msg : DebateMsg) : PyStr :=
  msgGet msg (pyS "author") (pyS "Unknown") ++ pyS ": "
    ++ (msgGet msg (pyS "content") (pyS "")).take 200 ++ pyS "..."

/-- `"\n".join(... for msg in debate_history[-10:])`: the debate summary embedded
in the final-report prompt. -/
def debateSummary (debate_history : List DebateMsg) : PyStr :=
  List.intercalate (pyS "\n")
    ((debate_history.drop (debate_history.length - 10)).map debateLine)

/-- Python iteration over a JSON-decoded value (`for dx in ...`): arrays yield
their elements, strings their characters, mappings their keys; other values
raise `TypeError`. -/
def pyIterate (v : JVal) : Except PyStr (List JVal) :=
  match v with
  | .jarr xs => Except.ok xs
  | .jstr s => Except.ok (s.map (fun c => JVal.jstr [c]))
  | .jobj fs => Except.ok (fs.map (fun kv => JVal.jstr kv.1))
  | _ => Except.error (pyS "TypeError: object is not iterable")

/-- Contribution of one consensus-diagnosis element (gemini_service.py 545-546):
non-mappings are skipped, a mapping contributes `dx.get('name', '')`. -/
def dxNameOf (dx : JVal) : Option JVal :=
  match dx with
  | .jobj dfs => some ((lookupA dfs (pyS "name")).getD (.jstr []))
  | _ => none

/-- Diagnosis names contributed by one analysis entry (gemini_service.py 541-546):
skip entries that are not mappings or lack `final_report`, reports that are not
mappings or lack `consensusDiagnosis`; otherwise iterate the consensus list. -/
def analysisDxNames (analysis : JVal) : Except PyStr (List JVal) :=
  match analysis with
  | .jobj fs =>
    match lookupA fs (pyS "final_report") with
    | some (.jobj rfs) =>
      match lookupA rfs (pyS "consensusDiagnosis") with
      | some cd =>
        match pyIterate cd with
        | .ok elems => .ok (elems.filterMap dxNameOf)
        | .error m => .error m
      | none => .ok []
    | some _ => .ok []
    | none => .ok []
  | _ => .ok []

/-- The extraction loop body of `suggest_cme_topics` over a list of analyses. -/
def extractDxList (l : List JVal) : Except PyStr (List JVal) :=
  match l with
  | [] => .ok []
  | a :: rest =>
    match analysisDxNames a, extractDxList rest with
    | .ok ns, .ok ms => .ok (ns ++ ms)
    | .error m, _ => .error m
    | _, .error m => .error m

/-- `for analysis in analyses[:10]` (gemini_service.py line 540): the diagnosis
extraction only ever visits the first ten supplied analyses. -/
def extractDiagnoses (analyses : List JVal) : Except PyStr (List JVal) :=
  extractDxList (analyses.take 10)

/-- Check that every collected name is a string, as `", ".join` demands. -/
def toStrList (l : List JVal) : Option (List PyStr) :=
  match l with
  | [] => some []
  | .jstr s :: rest => (toStrList rest).map (fun ss => s :: ss)
  | _ => none

/-- `set(diagnoses[:20])` followed by `", ".join(...)` (gemini_service.py 548):
cap the collected names at 20, deduplicate, demand strings. Set iteration order
is unspecified in Python; the model fixes one canonical order, which no claim
observes. -/
def cmeDiagnosisNames (analyses : List JVal) : Except PyStr (List PyStr) :=
  match extractDiagnoses analyses with
  | .error m => .error m
  | .ok vals =>
    match toStrList (vals.take 20) with
    | some ss => .ok ss.dedup
    | none => .error (pyS "TypeError: join expects str instances")

/-- The `diagnoses_str` embedded in the CME-topics prompt. -/
def cmeDiagnosesStr (analyses : List JVal) : Except PyStr PyStr :=
  match cmeDiagnosisNames analyses with
  | .ok ns => .ok (List.intercalate (pyS ", ") ns)
  | .error m => .error m

/-! ## Claim C2: failure-message classification in `_call_gemini` -/

/-- C2: for every failure arising inside a provider call in `_call_gemini`, a
message containing "quota" or "rate limit" (case-insensitive) raises the
retryable-busy condition, this check taking precedence; otherwise a message
containing "invalid" or "malformed" raises the bad-input condition; otherwise
the generic service-unavailable condition is raised. -/
theorem call_gemini_failure_classification (parse : PyStr → Option JVal) (m : PyStr) :
    ((strContains (lowerStr m) (pyS "quota") = true
        ∨ strContains (lowerStr m) (pyS "rate limit") = true) →
      callGeminiSchema parse (ProviderOutcome.failure m)
        = Except.error ⟨PyExcKind.exc, rateLimitMsg⟩) ∧
    (strContains (lowerStr m) (pyS "quota") = false →
      strContains (lowerStr m) (pyS "rate limit") = false →
      (strContains (lowerStr m) (pyS "invalid") = true
        ∨ strContains (lowerStr m) (pyS "malformed") = true) →
      callGeminiSchema parse (ProviderOutcome.failure m)
        = Except.error ⟨PyExcKind.valueError, invalidFormatMsg⟩) ∧
    (strContains (lowerStr m) (pyS "quota") = false →
      strContains (lowerStr m) (pyS "rate limit") = false →
      strContains (lowerStr m) (pyS "invalid") = false →
      strContains (lowerStr m) (pyS "malformed") = false →
      callGeminiSchema parse (ProviderOutcome.failure m)
        = Except.error ⟨PyExcKind.exc, unavailableMsg⟩) := by
  simp only [callGeminiSchema, callGeminiTryBody, classifyFailure]
  refine ⟨?_, ?_, ?_⟩
  · rintro (h | h) <;> simp [h]
  · intro h1 h2 h3
    rcases h3 with h | h <;> simp [h1, h2, h]
  · intro h1 h2 h3 h4
    simp [h1, h2, h3, h4]

/-- Witness for C2: one concrete failure message in each class. -/
theorem call_gemini_failure_classification_witness :
    callGeminiSchema (fun _ => none) (ProviderOutcome.failure (pyS "Resource QUOTA exhausted"))
        = Except.error ⟨PyExcKind.exc, rateLimitMsg⟩ ∧
    callGeminiSchema (fun _ => none) (ProviderOutcome.failure (pyS "Malformed function call"))
        = Except.error ⟨PyExcKind.valueError, invalidFormatMsg⟩ ∧
    callGeminiSchema (fun _ => none) (ProviderOutcome.failure (pyS "Deadline exceeded"))
        = Except.error ⟨PyExcKind.exc, unavailableMsg⟩ :=
  ⟨(call_gemini_failure_classification _ _).1 (Or.inl (by decide)),
   (call_gemini_failure_classification _ _).2.1 (by decide) (by decide) (Or.inr (by decide)),
   (call_gemini_failure_classification _ _).2.2 (by decide) (by decide) (by decide) (by decide)⟩

/-! ## Claim C3: only three constant errors ever surface to the caller -/

/-- C3: the error surfaced by `_call_gemini` on a provider failure is one of
three constant messages determined only by the failure's classification; two
failures in the same class produce identical caller-visible errors, both at the
exception level and in the HTTP response the clarifying-questions handler
builds from it, so the provider's diagnostic text never reaches the caller. -/
theorem provider_diagnostics_never_leak :
    (∀ m, classifyFailure m = ⟨PyExcKind.exc, rateLimitMsg⟩
        ∨ classifyFailure m = ⟨PyExcKind.valueError, invalidFormatMsg⟩
        ∨ classifyFailure m = ⟨PyExcKind.exc, unavailableMsg⟩) ∧
    (∀ m₁ m₂, failureClassOf m₁ = failureClassOf m₂ →
        classifyFailure m₁ = classifyFailure m₂) ∧
    (∀ m₁ m₂, failureClassOf m₁ = failureClassOf m₂ →
        clarifyingErrorResponse (classifyFailure m₁)
          = clarifyingErrorResponse (classifyFailure m₂)) ∧
    (∀ m, clarifyingErrorResponse (classifyFailure m)
          = ⟨400, JVal.jobj [(pyS "error",
              JVal.jstr (pyS "Invalid input data. Please check your request."))]⟩
        ∨ clarifyingErrorResponse (classifyFailure m)
          = ⟨500, JVal.jobj [(pyS "error",
              JVal.jstr (pyS "Failed to generate clarifying questions. Please try again later."))]⟩) := by
  have key : ∀ m₁ m₂, failureClassOf m₁ = failureClassOf m₂ →
      classifyFailure m₁ = classifyFailure m₂ := by
    intro m₁ m₂ h
    unfold failureClassOf at h
    unfold classifyFailure
    split_ifs at h ⊢ <;> simp_all
  refine ⟨?_, key, ?_, ?_⟩
  · intro m
    unfold classifyFailure
    split_ifs
    · exact Or.inl rfl
    · exact Or.inr (Or.inl rfl)
    · exact Or.inr (Or.inr rfl)
  · intro m₁ m₂ h
    exact congrArg clarifyingErrorResponse (key m₁ m₂ h)
  · intro m
    unfold classifyFailure clarifyingErrorResponse
    split_ifs
    · exact Or.inr rfl
    · exact Or.inl rfl
    · exact Or.inr rfl

/-- Witness for C3: two different rate-limit diagnostics surface identically. -/
theorem provider_diagnostics_never_leak_witness :
    classifyFailure (pyS "quota exceeded for project A")
      = classifyFailure (pyS "too many requests: RATE LIMIT") ∧
    clarifyingErrorResponse (classifyFailure (pyS "quota exceeded for project A"))
      = clarifyingErrorResponse (classifyFailure (pyS "too many requests: RATE LIMIT")) :=
  ⟨provider_diagnostics_never_leak.2.1 _ _ (by decide),
   provider_diagnostics_never_leak.2.2.1 _ _ (by decide)⟩

/-! ## Claim C5: invalid JSON after fence-stripping is the bad-input condition -/

/-- C5: whenever the provider text is not valid JSON after fence-stripping
(the abstracted `json.loads` returns no value), a schema-bearing `_call_gemini`
raises the constant bad-input `ValueError`, not the parser's native error, and
the clarifying-questions handler maps that condition to a 400 response with a
constant body. -/
theorem invalid_json_is_bad_input (parse : PyStr → Option JVal) (t : PyStr)
    (h : parse (cleanResponse t) = none) :
    callGeminiSchema parse (ProviderOutcome.success t)
        = Except.error ⟨PyExcKind.valueError, invalidFormatMsg⟩ ∧
    clarifyingErrorResponse ⟨PyExcKind.valueError, invalidFormatMsg⟩
        = ⟨400, JVal.jobj [(pyS "error",
            JVal.jstr (pyS "Invalid input data. Please check your request."))]⟩ := by
  constructor
  · simp only [callGeminiSchema, callGeminiTryBody, h]
    exact congrArg Except.error (by decide)
  · rfl

/-- Witness for C5: a concrete unparseable provider response yields the
bad-input condition. -/
theorem invalid_json_is_bad_input_witness :
    callGeminiSchema (fun _ => none) (ProviderOutcome.success (pyS "I am not JSON"))
      = Except.error ⟨PyExcKind.valueError, invalidFormatMsg⟩ :=
  (invalid_json_is_bad_input (fun _ => none) (pyS "I am not JSON") rfl).1

/-! ## Claim C6: language selector mapping and fallback -/

/-- C6 counterexample: the claim says an unrecognized selector silently falls
back to English with no error raised to the caller, but the request serializer
for the clarifying-questions, recommend-specialists and initial-diagnoses
operations rejects the unrecognized code "fr" with a validation error before
any prompt is built. -/
theorem language_fallback_counterexample :
    validate_language (pyS "fr")
      = Except.error (pyS "Invalid language. Must be one of: en, uz-L, uz-C, ru") := by
  simp [validate_language, valid_languages, pyS]

/-- C6 amended: every prompt builder maps en, uz-L, uz-C and ru to their fixed
labels and silently maps any other selector to English; but at the HTTP
boundary the serializer shared by clarifying-questions, recommend-specialists
and initial-diagnoses accepts exactly the four codes and rejects any other
value with a validation error (the final-report, drug-interactions and
cme-topics serializers perform no such check, so for them the silent fallback
holds end to end). -/
theorem language_fallback_amended (s : PyStr) :
    targetLang (pyS "en") = pyS "English" ∧
    targetLang (pyS "uz-L") = pyS "Uzbek (Latin script)" ∧
    targetLang (pyS "uz-C") = pyS "Uzbek (Cyrillic script)" ∧
    targetLang (pyS "ru") = pyS "Russian" ∧
    (s ∉ valid_languages → targetLang s = pyS "English") ∧
    (s ∈ valid_languages → validate_language s = Except.ok s) ∧
    (s ∉ valid_languages → validate_language s
        = Except.error (pyS "Invalid language. Must be one of: en, uz-L, uz-C, ru")) := by
  refine ⟨by decide, by decide, by decide, by decide, ?_, ?_, ?_⟩
  · intro h
    simp only [valid_languages, List.mem_cons, List.not_mem_nil, or_false, not_or] at h
    obtain ⟨h1, h2, h3, h4⟩ := h
    simp only [targetLang, lang_map, lookupA]
    rw [if_neg (Ne.symm h2), if_neg (Ne.symm h3), if_neg (Ne.symm h4), if_neg (Ne.symm h1)]
    rfl
  · intro h
    simp [validate_language, h]
  · intro h
    simp [validate_language, h]

/-- Witness for C6 amended: the unrecognized code "xx" falls back to English at
the prompt level and is rejected by the serializer. -/
theorem language_fallback_amended_witness :
    targetLang (pyS "xx") = pyS "English" ∧
    validate_language (pyS "xx")
      = Except.error (pyS "Invalid language. Must be one of: en, uz-L, uz-C, ru") :=
  ⟨(language_fallback_amended (pyS "xx")).2.2.2.2.1 (by decide),
   (language_fallback_amended (pyS "xx")).2.2.2.2.2.2 (by decide)⟩

/-! ## Claim C1: clarifying-questions truncation and empty-list fallback -/

/-- C1 counterexample: the claim says that whenever the provider's structured
value does not contain a list under 'questions' the operation returns an empty
list instead of failing, but for the structured value `[]` (a JSON array, not
an object) `result.get('questions', [])` raises `AttributeError` and the
request fails with a 500 response rather than returning an empty list. -/
theorem clarifying_questions_counterexample :
    (clarifyingQuestionsView (Except.ok (JVal.jarr []))).status = 500 ∧ (500 : Nat) ≠ 200 := by
  exact ⟨rfl, by decide⟩

/-- C1 amended: provided the provider's structured value is a JSON object, the
clarifying-questions operation succeeds with a questions list of length at most
10; a missing 'questions' key or a non-list value under it yields the empty
list, and a list value is truncated to its first 10 entries. (A non-object
structured value instead fails the request with the generic 500 response.) -/
theorem clarifying_questions_amended (fs : List (PyStr × JVal)) :
    (∀ xs, clarifyingQuestionsView (Except.ok (JVal.jobj fs)) = okQuestionsResp xs →
        xs.length ≤ 10) ∧
    (lookupA fs (pyS "questions") = none →
        clarifyingQuestionsView (Except.ok (JVal.jobj fs)) = okQuestionsResp []) ∧
    (∀ v, lookupA fs (pyS "questions") = some v → (∀ ys, v ≠ JVal.jarr ys) →
        clarifyingQuestionsView (Except.ok (JVal.jobj fs)) = okQuestionsResp []) ∧
    (∀ ys, lookupA fs (pyS "questions") = some (JVal.jarr ys) →
        clarifyingQuestionsView (Except.ok (JVal.jobj fs)) = okQuestionsResp (ys.take 10)) := by
  have hnone : lookupA fs (pyS "questions") = none →
      clarifyingQuestionsView (Except.ok (JVal.jobj fs)) = okQuestionsResp [] := by
    intro h
    simp [clarifyingQuestionsView, clarifyingQuestionsService, h, okQuestionsResp]
  have hnl : ∀ v, lookupA fs (pyS "questions") = some v → (∀ ys, v ≠ JVal.jarr ys) →
      clarifyingQuestionsView (Except.ok (JVal.jobj fs)) = okQuestionsResp [] := by
    intro v h hne
    cases v <;> first
      | exact absurd rfl (hne _)
      | simp [clarifyingQuestionsView, clarifyingQuestionsService, h, okQuestionsResp]
  have harr : ∀ ys, lookupA fs (pyS "questions") = some (JVal.jarr ys) →
      clarifyingQuestionsView (Except.ok (JVal.jobj fs)) = okQuestionsResp (ys.take 10) := by
    intro ys h
    simp [clarifyingQuestionsView, clarifyingQuestionsService, h, okQuestionsResp]
  refine ⟨?_, hnone, hnl, harr⟩
  intro xs hx
  have hex : ∃ l : List JVal, clarifyingQuestionsView (Except.ok (JVal.jobj fs))
      = okQuestionsResp (l.take 10) := by
    cases hl : lookupA fs (pyS "questions") with
    | none => exact ⟨[], by simpa using hnone hl⟩
    | some v =>
      cases v
      case jarr ys => exact ⟨ys, harr ys hl⟩
      all_goals exact ⟨[], by simpa using hnl _ hl (fun ys h => by cases h)⟩
  obtain ⟨l, hl⟩ := hex
  rw [hl] at hx
  have hxs : l.take 10 = xs := by
    simpa [okQuestionsResp] using hx
  rw [← hxs]
  exact List.length_take_le _ _

/-- Witness for C1 amended: a provider object with twelve questions yields a
200 response truncated to the first ten. -/
theorem clarifying_questions_amended_witness :
    clarifyingQuestionsView (Except.ok (JVal.jobj [(pyS "questions",
        JVal.jarr (List.replicate 12 (JVal.jstr (pyS "q"))))]))
      = okQuestionsResp ((List.replicate 12 (JVal.jstr (pyS "q"))).take 10) :=
  (clarifying_questions_amended _).2.2.2 _ (by simp [lookupA])

/-! ## Claim C7: every returned recommendation carries a model field -/

theorem lookupA_eq_none_of_not_mem {α : Type} (t : List (PyStr × α)) (k : PyStr)
    (h : k ∉ t.map Prod.fst) : lookupA t k = none := by
  induction t with
  | nil => rfl
  | cons kv rest ih =>
    obtain ⟨k1, v1⟩ := kv
    simp only [List.map_cons, List.mem_cons, not_or] at h
    simp only [lookupA]
    rw [if_neg (fun he => h.1 he.symm)]
    exact ih h.2

theorem lookupA_append_right {α : Type} (a b : List (PyStr × α)) (k : PyStr)
    (h : k ∉ a.map Prod.fst) : lookupA (a ++ b) k = lookupA b k := by
  induction a with
  | nil => rfl
  | cons kv rest ih =>
    obtain ⟨k1, v1⟩ := kv
    simp only [List.map_cons, List.mem_cons, not_or] at h
    simp only [List.cons_append, lookupA]
    rw [if_neg (fun he => h.1 he.symm)]
    exact ih h.2


theorem lookupA_setKey_self (fs : List (PyStr × JVal)) (k : PyStr) (v : JVal) :
    lookupA (setKey fs k v) k = some v := by
  induction fs with
  | nil => simp [setKey, lookupA]
  | cons kv rest ih =>
    obtain ⟨k1, v1⟩ := kv
    by_cases hh : k1 = k
    · simp [setKey, lookupA, hh]
    · simp [setKey, lookupA, hh, ih]

theorem lookupA_setKey_other (fs : List (PyStr × JVal)) (k q : PyStr) (v : JVal)
    (hq : q ≠ k) : lookupA (setKey fs k v) q = lookupA fs q := by
  induction fs with
  | nil => simp [setKey, lookupA, Ne.symm hq]
  | cons kv rest ih =>
    obtain ⟨k1, v1⟩ := kv
    by_cases hh : k1 = k
    · subst hh
      simp [setKey, lookupA, Ne.symm hq]
    · by_cases h2 : k1 = q
      · subst h2
        simp [setKey, lookupA, hh]
      · simp [setKey, lookupA, hh, h2, ih]

theorem addModelToRec_ok (rec r : JVal) (h : addModelToRec rec = Except.ok r) :
    ∃ dfs, r = JVal.jobj dfs ∧
      lookupA dfs (pyS "model") = some (JVal.jstr (modelForSpecialty
        ((lookupA dfs (pyS "specialty")).getD (JVal.jstr [])))) := by
  cases rec with
  | jobj dfs0 =>
    simp only [addModelToRec, Except.ok.injEq] at h
    refine ⟨_, h.symm, ?_⟩
    rw [lookupA_setKey_other dfs0 (pyS "model") (pyS "specialty") _ (by decide),
      lookupA_setKey_self]
  | jnull => simp [addModelToRec] at h
  | jbool b => simp [addModelToRec] at h
  | jnum n => simp [addModelToRec] at h
  | jstr s => simp [addModelToRec] at h
  | jarr l => simp [addModelToRec] at h

theorem addModelToRecs_ok (l ys : List JVal) (h : addModelToRecs l = Except.ok ys) :
    ∀ rec ∈ ys, ∃ dfs, rec = JVal.jobj dfs ∧
      lookupA dfs (pyS "model") = some (JVal.jstr (modelForSpecialty
        ((lookupA dfs (pyS "specialty")).getD (JVal.jstr [])))) := by
  induction l generalizing ys with
  | nil =>
    simp only [addModelToRecs, Except.ok.injEq] at h
    subst h
    intro rec hrec
    simp at hrec
  | cons a rest ih =>
    simp only [addModelToRecs] at h
    cases ha : addModelToRec a with
    | error m =>
      rw [ha] at h
      simp at h
    | ok r =>
      cases hr : addModelToRecs rest with
      | error m =>
        rw [ha, hr] at h
        simp at h
      | ok rs =>
        rw [ha, hr] at h
        simp only [Except.ok.injEq] at h
        subst h
        intro rec hrec
        rcases List.mem_cons.mp hrec with hrec | hrec
        · subst hrec
          exact addModelToRec_ok a rec ha
        · exact ih rs hr rec hrec

/-- C7: for every recommendation list returned by the specialist-recommendation
operation, every entry is a mapping carrying a `model` field whose value is the
fixed specialty-to-model table entry for the entry's specialty, with the 20
table rows as in the source and the fallback model "Gemini" for any specialty
outside the table; the field is never absent. -/
theorem recommend_specialists_model_field (callResult : Except PyExc JVal)
    (fs' : List (PyStr × JVal)) (xs : List JVal)
    (hres : recommendSpecialistsService callResult = Except.ok (JVal.jobj fs'))
    (hrecs : lookupA fs' (pyS "recommendations") = some (JVal.jarr xs)) :
    (∀ rec ∈ xs, ∃ dfs, rec = JVal.jobj dfs ∧
        lookupA dfs (pyS "model") = some (JVal.jstr (modelForSpecialty
          ((lookupA dfs (pyS "specialty")).getD (JVal.jstr []))))) ∧
    (modelForSpecialty (JVal.jstr (pyS "Cardiology")) = pyS "Gemini"
      ∧ modelForSpecialty (JVal.jstr (pyS "Neurology")) = pyS "Claude"
      ∧ modelForSpecialty (JVal.jstr (pyS "Radiology")) = pyS "GPT"
      ∧ modelForSpecialty (JVal.jstr (pyS "Oncology")) = pyS "Llama"
      ∧ modelForSpecialty (JVal.jstr (pyS "Endocrinology")) = pyS "Grok"
      ∧ modelForSpecialty (JVal.jstr (pyS "Gastroenterology")) = pyS "Gemini"
      ∧ modelForSpecialty (JVal.jstr (pyS "Pulmonology")) = pyS "GPT"
      ∧ modelForSpecialty (JVal.jstr (pyS "Nephrology")) = pyS "Gemini"
      ∧ modelForSpecialty (JVal.jstr (pyS "Rheumatology")) = pyS "Claude"
      ∧ modelForSpecialty (JVal.jstr (pyS "Infectious Disease")) = pyS "Llama"
      ∧ modelForSpecialty (JVal.jstr (pyS "Hematology")) = pyS "Llama"
      ∧ modelForSpecialty (JVal.jstr (pyS "Geriatrics")) = pyS "Gemini"
      ∧ modelForSpecialty (JVal.jstr (pyS "Emergency Medicine")) = pyS "GPT"
      ∧ modelForSpecialty (JVal.jstr (pyS "Internal Medicine")) = pyS "Gemini"
      ∧ modelForSpecialty (JVal.jstr (pyS "Pediatrics")) = pyS "Claude"
      ∧ modelForSpecialty (JVal.jstr (pyS "Dermatology")) = pyS "GPT"
      ∧ modelForSpecialty (JVal.jstr (pyS "Orthopedics")) = pyS "GPT"
      ∧ modelForSpecialty (JVal.jstr (pyS "Urology")) = pyS "Gemini"
      ∧ modelForSpecialty (JVal.jstr (pyS "Gynecology")) = pyS "Gemini"
      ∧ modelForSpecialty (JVal.jstr (pyS "Psychiatry")) = pyS "Claude") ∧
    (∀ s, s ∉ specialty_to_model.map Prod.fst →
        modelForSpecialty (JVal.jstr s) = pyS "Gemini") := by
  refine ⟨?_, by decide, ?_⟩
  · cases callResult with
    | error e => simp [recommendSpecialistsService] at hres
    | ok result =>
      cases result with
      | jnull => simp [recommendSpecialistsService] at hres
      | jbool b => simp [recommendSpecialistsService] at hres
      | jnum n => simp [recommendSpecialistsService] at hres
      | jstr s => simp [recommendSpecialistsService] at hres
      | jarr l => simp [recommendSpecialistsService] at hres
      | jobj fs =>
        simp only [recommendSpecialistsService] at hres
        cases hl : lookupA fs (pyS "recommendations") with
        | none =>
          rw [hl] at hres
          simp [pyTruthy] at hres
          subst hres
          rw [hl] at hrecs
          simp at hrecs
        | some recsv =>
          rw [hl] at hres
          cases recsv with
          | jnull =>
            simp [pyTruthy] at hres
            subst hres
            rw [hl] at hrecs
            simp at hrecs
          | jbool b =>
            cases b with
            | false =>
              simp [pyTruthy] at hres
              subst hres
              rw [hl] at hrecs
              simp at hrecs
            | true => simp [pyTruthy] at hres
          | jnum n =>
            by_cases hn : n = 0
            · subst hn
              simp [pyTruthy] at hres
              subst hres
              rw [hl] at hrecs
              simp at hrecs
            · simp [pyTruthy, hn] at hres
          | jstr s =>
            cases s with
            | nil =>
              simp [pyTruthy] at hres
              subst hres
              rw [hl] at hrecs
              simp at hrecs
            | cons c cs => simp [pyTruthy] at hres
          | jobj g =>
            cases g with
            | nil =>
              simp [pyTruthy] at hres
              subst hres
              rw [hl] at hrecs
              simp at hrecs
            | cons kv g' => simp [pyTruthy] at hres
          | jarr xs0 =>
            cases xs0 with
            | nil =>
              simp [pyTruthy] at hres
              subst hres
              rw [hl] at hrecs
              simp only [Option.some.injEq, JVal.jarr.injEq] at hrecs
              subst hrecs
              intro rec hrec
              simp at hrec
            | cons a as =>
              simp [pyTruthy] at hres
              cases hm : addModelToRecs (a :: as) with
              | error m =>
                rw [hm] at hres
                simp at hres
              | ok ys =>
                rw [hm] at hres
                simp at hres
                subst hres
                rw [lookupA_setKey_self] at hrecs
                simp only [Option.some.injEq, JVal.jarr.injEq] at hrecs
                subst hrecs
                exact addModelToRecs_ok _ _ hm
  · intro s h
    simp [modelForSpecialty, lookupA_eq_none_of_not_mem specialty_to_model s h]

/-- Witness for C7: a provider result with one Neurology recommendation comes
back annotated with the table model Claude. -/
theorem recommend_specialists_model_field_witness :
    lookupA [(pyS "specialty", JVal.jstr (pyS "Neurology")),
      (pyS "reason", JVal.jstr (pyS "r")),
      (pyS "model", JVal.jstr (pyS "Claude"))] (pyS "model")
      = some (JVal.jstr (pyS "Claude")) := by
  obtain ⟨dfs, hEq, hm⟩ :=
    (recommend_specialists_model_field
      (Except.ok (JVal.jobj [(pyS "recommendations", JVal.jarr [JVal.jobj
        [(pyS "specialty", JVal.jstr (pyS "Neurology")),
         (pyS "reason", JVal.jstr (pyS "r"))]])]))
      [(pyS "recommendations", JVal.jarr [JVal.jobj
        [(pyS "specialty", JVal.jstr (pyS "Neurology")),
         (pyS "reason", JVal.jstr (pyS "r")),
         (pyS "model", JVal.jstr (pyS "Claude"))]])]
      [JVal.jobj [(pyS "specialty", JVal.jstr (pyS "Neurology")),
         (pyS "reason", JVal.jstr (pyS "r")),
         (pyS "model", JVal.jstr (pyS "Claude"))]]
      rfl rfl).1
      (JVal.jobj [(pyS "specialty", JVal.jstr (pyS "Neurology")),
         (pyS "reason", JVal.jstr (pyS "r")),
         (pyS "model", JVal.jstr (pyS "Claude"))])
      (List.Mem.head _)
  injection hEq with h2
  subst h2
  exact hm

/-! ## Claim C8: the final-report debate summary window -/

theorem map_eq_of_forall2 {α β γ : Type} {R : α → β → Prop} (f : α → γ) (g : β → γ)
    (hfg : ∀ a b, R a b → f a = g b) :
    ∀ {l₁ : List α} {l₂ : List β}, List.Forall₂ R l₁ l₂ → l₁.map f = l₂.map g := by
  intro l₁ l₂ h
  induction h with
  | nil => rfl
  | cons ha _ ih => simp [hfg _ _ ha, ih]

/-- C8: the final-report prompt's debate summary is built from only the last 10
debate entries (any earlier entries never influence it), and from each entry
only the author and the first 200 characters of the content (joined with
newlines): two histories of equal length agreeing on authors and on the first
200 content characters produce the same summary. -/
theorem final_report_debate_window :
    (∀ pre rest : List DebateMsg, rest.length = 10 →
        debateSummary (pre ++ rest) = debateSummary rest) ∧
    (∀ h₁ h₂ : List DebateMsg,
        List.Forall₂ (fun m₁ m₂ =>
          msgGet m₁ (pyS "author") (pyS "Unknown") = msgGet m₂ (pyS "author") (pyS "Unknown") ∧
          (msgGet m₁ (pyS "content") (pyS "")).take 200
            = (msgGet m₂ (pyS "content") (pyS "")).take 200) h₁ h₂ →
        debateSummary h₁ = debateSummary h₂) := by
  constructor
  · intro pre rest h
    unfold debateSummary
    have hw : (pre ++ rest).drop ((pre ++ rest).length - 10) = rest := by
      rw [List.length_append, h, Nat.add_sub_cancel, List.drop_left]
    rw [hw, h]
    simp
  · intro h₁ h₂ hf
    unfold debateSummary
    rw [hf.length_eq]
    congr 1
    exact map_eq_of_forall2 debateLine debateLine
      (fun a b hab => by
        unfold debateLine
        rw [hab.1, hab.2])
      (List.forall₂_drop _ hf)

/-- Witness for C8: an eleventh-from-last entry with distinctive content does
not change the summary of the last ten entries. -/
theorem final_report_debate_window_witness :
    debateSummary ([[(pyS "content", pyS "IGNORED OLD TURN")]]
        ++ List.replicate 10 [(pyS "author", pyS "Cardiologist")])
      = debateSummary (List.replicate 10 [(pyS "author", pyS "Cardiologist")]) :=
  final_report_debate_window.1 _ _ (by simp)

/-! ## Claim C9: CME diagnosis extraction window and caps -/

theorem toStrList_length : ∀ (l : List JVal) (ss : List PyStr),
    toStrList l = some ss → ss.length = l.length := by
  intro l
  induction l with
  | nil =>
    intro ss h
    simp only [toStrList, Option.some.injEq] at h
    subst h
    rfl
  | cons a rest ih =>
    intro ss h
    cases a with
    | jstr s =>
      simp only [toStrList] at h
      cases hr : toStrList rest with
      | none =>
        rw [hr] at h
        simp at h
      | some ss' =>
        rw [hr] at h
        simp only [Option.map_some', Option.some.injEq] at h
        subst h
        simp [ih ss' hr]
    | jnull => simp [toStrList] at h
    | jbool b => simp [toStrList] at h
    | jnum n => simp [toStrList] at h
    | jarr l2 => simp [toStrList] at h
    | jobj fs => simp [toStrList] at h

theorem toStrList_mem : ∀ (l : List JVal) (ss : List PyStr) (n : PyStr),
    toStrList l = some ss → n ∈ ss → JVal.jstr n ∈ l := by
  intro l
  induction l with
  | nil =>
    intro ss n h hn
    simp only [toStrList, Option.some.injEq] at h
    subst h
    simp at hn
  | cons a rest ih =>
    intro ss n h hn
    cases a with
    | jstr s =>
      simp only [toStrList] at h
      cases hr : toStrList rest with
      | none =>
        rw [hr] at h
        simp at h
      | some ss' =>
        rw [hr] at h
        simp only [Option.map_some', Option.some.injEq] at h
        subst h
        rcases List.mem_cons.mp hn with hn | hn
        · subst hn
          exact List.mem_cons_self _ _
        · exact List.mem_cons_of_mem _ (ih ss' n hr hn)
    | jnull => simp [toStrList] at h
    | jbool b => simp [toStrList] at h
    | jnum n2 => simp [toStrList] at h
    | jarr l2 => simp [toStrList] at h
    | jobj fs => simp [toStrList] at h

/-- C9: the diagnosis names embedded in the CME-topics prompt come from at most
the first 10 supplied analyses (the code's window over the caller-ordered,
most-recent-first history): the built string is unchanged by discarding
everything past the tenth analysis, and on success the name list is
deduplicated, has at most 20 entries, and every name was extracted from those
10 analyses. -/
theorem cme_topics_diagnoses_window (analyses : List JVal) :
    cmeDiagnosesStr analyses = cmeDiagnosesStr (analyses.take 10) ∧
    (∀ ns, cmeDiagnosisNames analyses = Except.ok ns →
      ns.Nodup ∧ ns.length ≤ 20 ∧
      ∀ n ∈ ns, ∃ vals, extractDxList (analyses.take 10) = Except.ok vals
        ∧ JVal.jstr n ∈ vals) := by
  constructor
  · have he : extractDiagnoses analyses = extractDiagnoses (analyses.take 10) := by
      unfold extractDiagnoses
      rw [List.take_take]
      simp
    unfold cmeDiagnosesStr cmeDiagnosisNames
    rw [he]
  · intro ns h
    unfold cmeDiagnosisNames at h
    cases hv : extractDiagnoses analyses with
    | error m =>
      rw [hv] at h
      simp at h
    | ok vals =>
      rw [hv] at h
      dsimp only at h
      cases hs : toStrList (vals.take 20) with
      | none =>
        rw [hs] at h
        simp at h
      | some ss =>
        rw [hs] at h
        simp only [Except.ok.injEq] at h
        subst h
        refine ⟨List.nodup_dedup ss, ?_, ?_⟩
        · calc ss.dedup.length ≤ ss.length := (List.dedup_sublist ss).length_le
            _ = (vals.take 20).length := toStrList_length _ _ hs
            _ ≤ 20 := List.length_take_le _ _
        · intro n hn
          refine ⟨vals, hv, ?_⟩
          have hns : n ∈ ss := List.mem_dedup.mp hn
          have h2 : JVal.jstr n ∈ vals.take 20 := toStrList_mem _ _ _ hs hns
          exact List.take_subset _ _ h2

/-- Witness for C9: one analysis whose report repeats the diagnosis "Flu"
yields the deduplicated name list of length one. -/
theorem cme_topics_diagnoses_window_witness :
    cmeDiagnosisNames [JVal.jobj [(pyS "final_report", JVal.jobj
        [(pyS "consensusDiagnosis", JVal.jarr
          [JVal.jobj [(pyS "name", JVal.jstr (pyS "Flu"))],
           JVal.jobj [(pyS "name", JVal.jstr (pyS "Flu"))]])])]]
      = Except.ok [pyS "Flu"] ∧
    ([pyS "Flu"] : List PyStr).Nodup ∧ ([pyS "Flu"] : List PyStr).length ≤ 20 := by
  have h := (cme_topics_diagnoses_window [JVal.jobj [(pyS "final_report", JVal.jobj
      [(pyS "consensusDiagnosis", JVal.jarr
        [JVal.jobj [(pyS "name", JVal.jstr (pyS "Flu"))],
         JVal.jobj [(pyS "name", JVal.jstr (pyS "Flu"))]])])]]).2 [pyS "Flu"] rfl
  exact ⟨rfl, h.1, h.2.1⟩

/-! ## Claim C10: CME extraction silently skips malformed entries -/

theorem filterMap_dxNameOf_filter (xs : List JVal) :
    xs.filterMap dxNameOf = (xs.filter isMapping).filterMap dxNameOf := by
  induction xs with
  | nil => rfl
  | cons a as ih =>
    cases a with
    | jobj dfs => simp [dxNameOf, isMapping, List.filterMap_cons, List.filter_cons, ih]
    | jnull => simp [dxNameOf, isMapping, List.filterMap_cons, List.filter_cons, ih]
    | jbool b => simp [dxNameOf, isMapping, List.filterMap_cons, List.filter_cons, ih]
    | jnum n => simp [dxNameOf, isMapping, List.filterMap_cons, List.filter_cons, ih]
    | jstr s => simp [dxNameOf, isMapping, List.filterMap_cons, List.filter_cons, ih]
    | jarr l => simp [dxNameOf, isMapping, List.filterMap_cons, List.filter_cons, ih]

/-- C10: the CME diagnosis extraction skips, without raising, every analysis
entry that is not a mapping or lacks 'final_report', every final report that is
not a mapping or lacks 'consensusDiagnosis', and every consensus-diagnosis
element that is not a mapping (removing such elements does not change the
result); a diagnosis mapping without 'name' contributes the empty string. -/
theorem cme_extraction_skips_malformed :
    (∀ v : JVal, (∀ fs, v ≠ JVal.jobj fs) → analysisDxNames v = Except.ok []) ∧
    (∀ fs, lookupA fs (pyS "final_report") = none →
        analysisDxNames (JVal.jobj fs) = Except.ok []) ∧
    (∀ fs rep, lookupA fs (pyS "final_report") = some rep →
        (∀ rfs, rep ≠ JVal.jobj rfs) →
        analysisDxNames (JVal.jobj fs) = Except.ok []) ∧
    (∀ fs rfs, lookupA fs (pyS "final_report") = some (JVal.jobj rfs) →
        lookupA rfs (pyS "consensusDiagnosis") = none →
        analysisDxNames (JVal.jobj fs) = Except.ok []) ∧
    (∀ fs rfs xs, lookupA fs (pyS "final_report") = some (JVal.jobj rfs) →
        lookupA rfs (pyS "consensusDiagnosis") = some (JVal.jarr xs) →
        analysisDxNames (JVal.jobj fs) = Except.ok (xs.filterMap dxNameOf) ∧
        xs.filterMap dxNameOf = (xs.filter isMapping).filterMap dxNameOf) ∧
    (∀ dfs, lookupA dfs (pyS "name") = none →
        dxNameOf (JVal.jobj dfs) = some (JVal.jstr [])) := by
  refine ⟨?_, ?_, ?_, ?_, ?_, ?_⟩
  · intro v hv
    cases v with
    | jobj fs => exact absurd rfl (hv fs)
    | jnull => simp [analysisDxNames]
    | jbool b => simp [analysisDxNames]
    | jnum n => simp [analysisDxNames]
    | jstr s => simp [analysisDxNames]
    | jarr l => simp [analysisDxNames]
  · intro fs h
    simp [analysisDxNames, h]
  · intro fs rep h hne
    cases rep with
    | jobj rfs => exact absurd rfl (hne rfs)
    | jnull => simp [analysisDxNames, h]
    | jbool b => simp [analysisDxNames, h]
    | jnum n => simp [analysisDxNames, h]
    | jstr s => simp [analysisDxNames, h]
    | jarr l => simp [analysisDxNames, h]
  · intro fs rfs h1 h2
    simp [analysisDxNames, h1, h2]
  · intro fs rfs xs h1 h2
    constructor
    · simp [analysisDxNames, h1, h2, pyIterate]
    · exact filterMap_dxNameOf_filter xs
  · intro dfs h
    simp [dxNameOf, h]

/-- Witness for C10: a numeric analysis entry, a mapping whose report is a bare
string, and a diagnosis mapping without a name all take the tolerated paths. -/
theorem cme_extraction_skips_malformed_witness :
    analysisDxNames (JVal.jnum 3) = Except.ok [] ∧
    analysisDxNames (JVal.jobj [(pyS "final_report", JVal.jstr (pyS "x"))])
      = Except.ok [] ∧
    dxNameOf (JVal.jobj [(pyS "severity", JVal.jstr (pyS "High"))])
      = some (JVal.jstr []) :=
  ⟨cme_extraction_skips_malformed.1 (JVal.jnum 3) (fun _ h => JVal.noConfusion h),
   cme_extraction_skips_malformed.2.2.1 _ _ rfl (fun _ h => JVal.noConfusion h),
   cme_extraction_skips_malformed.2.2.2.2.2 _ rfl⟩

/-! ## Claim C4: fenced JSON parses identically to unfenced JSON -/

/-- C4: wrapping a JSON payload in backtick-json fences leaves the text handed
to the JSON parser unchanged, so it parses identically. The hypotheses hold for
every JSON payload taken modulo surrounding whitespace: a trimmed JSON value
never begins with a backtick-json fence (it begins with a brace, bracket,
quote, digit, sign, or a letter of true/false/null) and never ends in a
backtick fence. -/
theorem fenced_json_parses_identically (p : PyStr)
    (h0 : pstrip p = p)
    (h1 : (pyS "```json").isPrefixOf p = false)
    (h2 : (pyS "```").isSuffixOf p = false) :
    cleanResponse (pyS "```json" ++ p ++ pyS "```") = cleanResponse p ∧
    ∀ parse : PyStr → Option JVal,
      parse (cleanResponse (pyS "```json" ++ p ++ pyS "```"))
        = parse (cleanResponse p) := by
  have hw : pyS "```json" ++ p ++ pyS "```"
      = '`' :: (pyS "``json" ++ p ++ pyS "```") := rfl
  have hrevw : (pyS "```json" ++ p ++ pyS "```").reverse
      = '`' :: (pyS "``" ++ (pyS "```json" ++ p).reverse) := by
    rw [List.reverse_append]
    rfl
  have hstripw : pstrip (pyS "```json" ++ p ++ pyS "```")
      = pyS "```json" ++ p ++ pyS "```" := by
    unfold pstrip
    rw [show (pyS "```json" ++ p ++ pyS "```").dropWhile Char.isWhitespace
        = pyS "```json" ++ p ++ pyS "```" from by
      rw [hw]
      exact List.dropWhile_cons_of_neg (by decide)]
    rw [hrevw, List.dropWhile_cons_of_neg (by decide), ← hrevw, List.reverse_reverse]
  have hpre : (pyS "```json").isPrefixOf (pyS "```json" ++ p ++ pyS "```") = true := by
    apply List.isPrefixOf_iff_prefix.mpr
    rw [List.append_assoc]
    exact List.prefix_append _ _
  have hdrop : (pyS "```json" ++ p ++ pyS "```").drop 7 = p ++ pyS "```" := by
    have hlen : (pyS "```json").length = 7 := rfl
    rw [List.append_assoc, ← hlen]
    exact List.drop_left _ _
  have hsuf : (pyS "```").isSuffixOf (p ++ pyS "```") = true :=
    List.isSuffixOf_iff_suffix.mpr (List.suffix_append _ _)
  have htake : (p ++ pyS "```").take ((p ++ pyS "```").length - 3) = p := by
    have hl : (p ++ pyS "```").length - 3 = p.length := by
      rw [List.length_append]
      simp [pyS]
    rw [hl]
    exact List.take_left p _
  have hclean_w : cleanResponse (pyS "```json" ++ p ++ pyS "```") = pstrip p := by
    simp only [cleanResponse]
    rw [hstripw, if_pos hpre, hdrop, if_pos hsuf, htake]
  have hclean_p : cleanResponse p = p := by
    have hnp : ¬ ((pyS "```json").isPrefixOf p = true) := by
      rw [h1]
      decide
    have hns : ¬ ((pyS "```").isSuffixOf p = true) := by
      rw [h2]
      decide
    simp only [cleanResponse]
    rw [h0, if_neg hnp, if_neg hns]
    exact h0
  have hcw : cleanResponse (pyS "```json" ++ p ++ pyS "```") = p := hclean_w.trans h0
  exact ⟨hcw.trans hclean_p.symm, fun parse => congrArg parse (hcw.trans hclean_p.symm)⟩

/-- Witness for C4: the concrete payload `[1, 2]` parses the same fenced and
unfenced. -/
theorem fenced_json_parses_identically_witness :
    cleanResponse (pyS "```json" ++ pyS "[1, 2]" ++ pyS "```")
      = cleanResponse (pyS "[1, 2]") :=
  (fenced_json_parses_identically (pyS "[1, 2]")
    (by decide) (by decide) (by decide)).1
